import Mathlib

/-!
Verification of the workflow-graph execution engine of this repository.

The development shallowly embeds the two graph instantiations and their
supporting state operations:

* `Travel` — the multi-agent router-dispatch graph of
  `demo-travel-agent` (`graph.py`, `utils/graph_utils.py`,
  `agents/router.py`, `agents/booking.py`).  Python dictionaries are
  heap-allocated mutable objects; to make the no-mutation guarantees of
  `graph_utils` meaningful, states are embedded as records living on an
  explicit heap (`Heap`), with the message list held behind a reference
  so that the shallow `dict.copy()` sharing of the source is visible.
  `datetime.now()` is threaded as an explicit `Nat` tick.

* `NFL` — the single-agent tool loop of `Multiagent NFL/agent.py`:
  the LangGraph `agent → tools → agent` loop, `should_continue`,
  `finalize`, and the `web_scrape` tool's error handling.  The language
  model is an opaque adapter function; LangGraph's recursion limit is a
  fuel parameter and `GraphRecursionError` is an `Except.error`.
-/

/-! ## Python string primitives

`pyIn pat hay` is Python's substring test `pat in hay`; implemented
directly on character lists so it is executable and easy to reason
about.  Python's `str.lower` agrees with `String.toLower` on ASCII,
which covers every keyword the routers scan for. -/

/-- `startsWithChars hay pat`: `pat` is a prefix of `hay` (on char lists). -/
def startsWithChars : List Char → List Char → Bool
  | _, [] => true
  | [], _ :: _ => false
  | a :: hay, p :: pat => a == p && startsWithChars hay pat

/-- `hasSubChars hay pat`: `pat` occurs contiguously somewhere in `hay`. -/
def hasSubChars : List Char → List Char → Bool
  | [], pat => pat.isEmpty
  | hay@(_ :: tl), pat => startsWithChars hay pat || hasSubChars tl pat

/-- Python's `pat in hay` on strings. -/
def pyIn (pat hay : String) : Bool :=
  hasSubChars hay.toList pat.toList

/-- Python's `s.lower()`, character by character (`Char.toLower`
matches `str.lower()` on the ASCII range, which covers every keyword
scanned below). -/
def pyLower (s : String) : String :=
  String.mk (s.toList.map Char.toLower)

/-- Python's `l[-n:]`: the last `n` elements (all of them when `l` is
shorter than `n`). -/
def lastN (n : Nat) (l : List α) : List α :=
  l.drop (l.length - n)

namespace Travel

/-! ## Data model (`models/state.py`) -/

/-- `CustomerInfo` (TypedDict).  `preferences : Dict[str, Any]` is
carried opaquely as an association list; no verified operation touches
it. -/
structure CustomerInfo where
  customer_id : Option String
  name : Option String
  email : Option String
  phone : Option String
  preferences : List (String × String)
deriving DecidableEq

/-- `TravelBooking` (TypedDict).  `price : Optional[float]` is an IEEE
float in the source; it is never constructed or read by any verified
operation and is carried opaquely, modelled as `Option ℚ`. -/
structure TravelBooking where
  booking_id : Option String
  destination : Option String
  departure_date : Option String
  return_date : Option String
  travelers : Int
  booking_status : String
  price : Option ℚ
deriving DecidableEq

/-- `ConversationMessage` (TypedDict); `timestamp : datetime` becomes a
`Nat` tick. -/
structure ConversationMessage where
  role : String
  content : String
  timestamp : Nat
  agent_name : Option String
deriving DecidableEq

/-- `TravelAgentState` (TypedDict).  The `messages` entry of the Python
dict holds a reference to a heap-allocated list (`messagesRef`), so the
shallow-copy semantics of `state.copy()` is represented faithfully. -/
structure StateObj where
  customer_info : CustomerInfo
  messagesRef : Nat
  current_query : String
  query_type : Option String
  current_agent : Option String
  agent_responses : List (String × String)
  booking_info : TravelBooking
  is_complete : Bool
  error_message : Option String
  session_id : String
  created_at : Nat
  updated_at : Nat
deriving DecidableEq

/-- The Python object heap: state dicts and message lists.  A state is
a reference (index) into `dicts`; new objects are allocated at the end;
assignment into an object is `List.set`. -/
structure Heap where
  dicts : List StateObj
  lists : List (List ConversationMessage)
deriving DecidableEq

/-- Dereference a state dict. -/
def Heap.dictAt (h : Heap) (r : Nat) : Option StateObj :=
  h.dicts.get? r

/-- Dereference the message list of the state at `r`. -/
def Heap.msgsOf (h : Heap) (r : Nat) : Option (List ConversationMessage) :=
  match h.dicts.get? r with
  | some o => h.lists.get? o.messagesRef
  | none => none

/-! ## State operations (`utils/graph_utils.py`) -/

/-- `add_message_to_state(state, role, content, agent_name)`:
constructs the new `ConversationMessage`, shallow-copies the state dict
(`state.copy()` — the copy initially shares `messagesRef`), builds a
fresh list `state["messages"] + [new_message]`, then assigns
`updated_state["messages"]` and `updated_state["updated_at"]` on the
copy.  Both `datetime.now()` calls are the tick `now`.  Returns the
heap and the reference to the new state object.  (The `none` branch is
unreachable: Python references are never dangling.) -/
def add_message_to_state (h : Heap) (r : Nat) (role content : String)
    (agent_name : Option String) (now : Nat) : Heap × Nat :=
  match h.dicts.get? r with
  | none => (h, r)
  | some obj =>
    let new_message : ConversationMessage :=
      ⟨role, content, now, agent_name⟩
    let r' := h.dicts.length
    let h1 : Heap := { h with dicts := h.dicts ++ [obj] }
    let oldMsgs := (h.lists.get? obj.messagesRef).getD []
    let lr := h.lists.length
    let h2 : Heap := { h1 with lists := h1.lists ++ [oldMsgs ++ [new_message]] }
    let h3 : Heap :=
      { h2 with dicts := h2.dicts.set r' { obj with messagesRef := lr, updated_at := now } }
    (h3, r')

/-- The field/value pairs `update_state_field` is invoked with in this
repository; the dynamic `state[field] = value` dict assignment is
embedded as a typed update on the corresponding record field. -/
inductive FieldUpd where
  | query_type (v : Option String)
  | current_agent (v : Option String)
  | is_complete (v : Bool)
  | booking_info (v : TravelBooking)
  | error_message (v : Option String)
deriving DecidableEq

/-- `updated_state[field] = value`. -/
def setField (o : StateObj) : FieldUpd → StateObj
  | .query_type v => { o with query_type := v }
  | .current_agent v => { o with current_agent := v }
  | .is_complete v => { o with is_complete := v }
  | .booking_info v => { o with booking_info := v }
  | .error_message v => { o with error_message := v }

/-- `update_state_field(state, field, value)`: shallow copy, assign the
field on the copy, refresh `updated_at`. -/
def update_state_field (h : Heap) (r : Nat) (f : FieldUpd) (now : Nat) :
    Heap × Nat :=
  match h.dicts.get? r with
  | none => (h, r)
  | some obj =>
    let r' := h.dicts.length
    let h1 : Heap := { h with dicts := h.dicts ++ [obj] }
    let h2 : Heap :=
      { h1 with dicts := h1.dicts.set r' { setField obj f with updated_at := now } }
    (h2, r')

/-! ## Router dispatch (`graph.py`) -/

/-- The nodes of the travel workflow graph (`_build_graph`). -/
inductive TravelNode where
  | router
  | booking_agent
  | complaint_agent
  | information_agent
  | final_response
deriving DecidableEq

/-- The label→destination mapping of the conditional edge out of
`router` in `_build_graph`. -/
def routerEdgeMap : String → Option TravelNode
  | "booking" => some .booking_agent
  | "complaint" => some .complaint_agent
  | "information" => some .information_agent
  | "complete" => some .final_response
  | _ => none

/-- The booking keywords scanned by `_route_to_agent`. -/
def routeBookingWords : List String :=
  ["book", "reserve", "booking", "flight", "hotel"]

/-- The complaint keywords scanned by `_route_to_agent`. -/
def routeComplaintWords : List String :=
  ["complaint", "problem", "issue", "cancel", "refund"]

/-- The information keywords scanned by `_route_to_agent`. -/
def routeInformationWords : List String :=
  ["information", "recommend", "suggest", "where", "how"]

/-- `_route_to_agent`: lowercases `state["current_query"]` and returns
the first matching category label, defaulting to `"complete"`. -/
def route_to_agent (current_query : String) : String :=
  let query := pyLower current_query
  if routeBookingWords.any (fun word => pyIn word query) then "booking"
  else if routeComplaintWords.any (fun word => pyIn word query) then "complaint"
  else if routeInformationWords.any (fun word => pyIn word query) then "information"
  else "complete"

/-! ## Router fallback classification (`agents/router.py`) -/

/-- `booking_keywords` of `RouterAgent._fallback_routing`. -/
def booking_keywords : List String :=
  ["book", "reserve", "booking", "flight", "hotel", "tour", "package",
   "vacation", "trip", "travel", "reservation", "ticket"]

/-- `complaint_keywords` of `RouterAgent._fallback_routing`. -/
def complaint_keywords : List String :=
  ["complaint", "problem", "issue", "cancel", "refund", "delay",
   "wrong", "mistake", "error", "dissatisfied", "angry", "upset",
   "terrible", "awful", "horrible"]

/-- The keyword-match kernel of `RouterAgent._fallback_routing`: the
chosen `(agent, reasoning)` pair for a query. -/
def fallback_choice (current_query : String) : String × String :=
  let query := pyLower current_query
  if booking_keywords.any (fun keyword => pyIn keyword query) then
    ("booking", "Detected booking-related keywords")
  else if complaint_keywords.any (fun keyword => pyIn keyword query) then
    ("complaint", "Detected complaint-related keywords")
  else
    ("information", "Defaulting to information agent")

/-- `RouterAgent._fallback_routing(state)`: picks the agent by keyword
matching, writes `query_type` and `current_agent`, and appends the
routing message (role `"agent"`, agent name `"router"`). -/
def fallback_routing (h : Heap) (r : Nat) (now : Nat) : Heap × Nat :=
  let query := ((h.dictAt r).map (·.current_query)).getD ""
  let agent := (fallback_choice query).1
  let reasoning := (fallback_choice query).2
  let (h1, r1) := update_state_field h r (.query_type (some agent)) now
  let (h2, r2) := update_state_field h1 r1 (.current_agent (some agent)) now
  let routing_message :=
    "Router: I\x27ve analyzed your query and determined this is a " ++ agent ++
      " request. " ++ reasoning
  add_message_to_state h2 r2 "agent" routing_message (some "router") now

/-! ## Finalizer (`graph.py` `_final_response_agent`) -/

/-- The answer string `_final_response_agent` computes from a message
list: the contents of the messages whose `role` is `"agent"`, the last
3 of them joined by spaces, prefixed `"Final Response: "`. -/
def finalAnswerOf (msgs : List ConversationMessage) : String :=
  let responses := (msgs.filter (fun msg => msg.role == "agent")).map (·.content)
  "Final Response: " ++ String.intercalate " " (lastN 3 responses)

/-- `_final_response_agent(state)`: computes the final answer, appends
it as a new message with role `"assistant"` and agent name
`"final_response"`, and sets `is_complete` to `True`. -/
def final_response_agent (h : Heap) (r : Nat) (now : Nat) : Heap × Nat :=
  let msgs := (h.msgsOf r).getD []
  let final_response := finalAnswerOf msgs
  let (h1, r1) :=
    add_message_to_state h r "assistant" final_response (some "final_response") now
  update_state_field h1 r1 (.is_complete true) now

/-! ## Booking update (`agents/booking.py`) -/

/-- The extracted-info mapping handed to `_update_booking_info` (a JSON
dict).  `none` stands for an absent key; a key present with a falsy
value behaves identically to an absent key in the source, so the two
are collapsed. -/
structure ExtractedInfo where
  destination : Option String := none
  departure_date : Option String := none
  return_date : Option String := none
  travelers : Option Int := none
deriving DecidableEq

/-- Python truthiness of an optional string (`None` and `""` are
falsy). -/
def truthyStr : Option String → Bool
  | some s => !(s == "")
  | none => false

/-- Python truthiness of an optional int (`None` and `0` are falsy). -/
def truthyInt : Option Int → Bool
  | some n => !(n == 0)
  | none => false

/-- The four `if "k" in extracted_info and extracted_info["k"]:`
overwrites of `_update_booking_info`. -/
def applyExtracted (current : TravelBooking) (info : ExtractedInfo) :
    TravelBooking :=
  let u := current
  let u := if truthyStr info.destination then
      { u with destination := info.destination } else u
  let u := if truthyStr info.departure_date then
      { u with departure_date := info.departure_date } else u
  let u := if truthyStr info.return_date then
      { u with return_date := info.return_date } else u
  let u := if truthyInt info.travelers then
      { u with travelers := info.travelers.getD 0 } else u
  u

/-- `BookingAgent._update_booking_info(current_booking, extracted_info)`:
overwrite the four extractable fields when supplied truthy, then
generate a fresh booking id (`f"BK{timestamp}"`, the timestamp being
the tick `now`) exactly when `not updated["booking_id"] and
updated["destination"]`. -/
def update_booking_info (current_booking : TravelBooking)
    (extracted_info : ExtractedInfo) (now : Nat) : TravelBooking :=
  let updated := applyExtracted current_booking extracted_info
  if !truthyStr updated.booking_id && truthyStr updated.destination then
    { updated with booking_id := some ("BK" ++ toString now) }
  else
    updated

end Travel

namespace NFL

/-! ## Tool loop (`Multiagent NFL/agent.py`) -/

/-- One tool call requested by the model (langchain `tool_calls`
entry). -/
structure ToolCall where
  name : String
  args : String
  id : String
deriving DecidableEq

/-- A langchain message.  `ai` carries the model's `tool_calls` list
(empty when the model produced a final answer). -/
inductive LMsg where
  | system (content : String)
  | human (content : String)
  | ai (content : String) (tool_calls : List ToolCall)
  | tool (content : String) (tool_call_id : String)
deriving DecidableEq

/-- `NflAgentState`: `messages` merges by `operator.add` (append);
`final_answer` overwrites. -/
structure NflAgentState where
  messages : List LMsg
  final_answer : Option String
deriving DecidableEq

/-- A node's partial-state return value.  An absent `final_answer` key
is `none`. -/
structure StateDelta where
  messages : List LMsg := []
  final_answer : Option String := none

/-- LangGraph's reducer for `NflAgentState`: `messages` is annotated
`operator.add`, so delta messages are appended; `final_answer` has no
reducer and overwrites when present in the delta. -/
def mergeState (s : NflAgentState) (d : StateDelta) : NflAgentState :=
  { messages := s.messages ++ d.messages,
    final_answer := match d.final_answer with
      | some a => some a
      | none => s.final_answer }

/-- The model adapter: `model_with_tools.invoke(messages)` returns an
`AIMessage`, embedded as its `(content, tool_calls)` pair.  The model
itself is an opaque external capability. -/
def Adapter : Type := List LMsg → String × List ToolCall

/-- The executor of one registered tool: `callId`-paired payload text.
Tool bodies are opaque external capabilities. -/
def ToolExec : Type := ToolCall → String

/-- The fixed system prompt of `build_agent` (content irrelevant to the
verified properties, kept abstract as a named constant). -/
def systemPrompt : String := "system-prompt"

/-- `agent_node`: prepend the system message to the state's messages,
invoke the model, return the response as a one-message delta. -/
def agent_node (adapter : Adapter) (s : NflAgentState) : StateDelta :=
  let response := adapter (.system systemPrompt :: s.messages)
  { messages := [.ai response.1 response.2] }

/-- `ToolNode(tools)`: execute every tool call of the last (AI)
message, producing one `ToolMessage` per call, `callId` pairing
preserved. -/
def tool_node (exec : ToolExec) (s : NflAgentState) : StateDelta :=
  match s.messages.getLast? with
  | some (.ai _ tool_calls) =>
    { messages := tool_calls.map (fun tc => .tool (exec tc) tc.id) }
  | _ => {}

/-- `finalize`: if the last message is an `AIMessage`, its stripped
content becomes `final_answer`, else the empty string. -/
def finalize_node (s : NflAgentState) : StateDelta :=
  match s.messages.getLast? with
  | some (.ai content _) => { final_answer := some content.trim }
  | _ => { final_answer := some "" }

/-- `should_continue`: `"tools"` iff the last message is an `AIMessage`
with a non-empty `tool_calls` list, else `"finalize"`. -/
def should_continue (s : NflAgentState) : String :=
  match s.messages.getLast? with
  | some (.ai _ tool_calls) =>
    if tool_calls.isEmpty then "finalize" else "tools"
  | _ => "finalize"

/-- The three nodes of the graph built in `build_agent`. -/
inductive Node where
  | agent
  | tools
  | finalize
deriving DecidableEq

/-- The label→destination mapping of the conditional edge out of
`agent`. -/
def agentEdgeMap : String → Option Node
  | "tools" => some .tools
  | "finalize" => some .finalize
  | _ => none

/-- Execute one node (merging its delta, as the executor does). -/
def execNode (adapter : Adapter) (exec : ToolExec) :
    Node → NflAgentState → NflAgentState
  | .agent, s => mergeState s (agent_node adapter s)
  | .tools, s => mergeState s (tool_node exec s)
  | .finalize, s => mergeState s (finalize_node s)

/-- A run aborts with `recursionLimit` (LangGraph's
`GraphRecursionError`) or with `badLabel` (a conditional edge label
missing from the mapping — unreachable here). -/
inductive RunError where
  | recursionLimit
  | badLabel
deriving DecidableEq

/-- The outgoing transition after executing a node on the post-merge
state: `agent` routes through `should_continue` and the edge mapping,
`tools` goes unconditionally back to `agent`, `finalize` reaches END. -/
def nextTarget : Node → NflAgentState → Except RunError (Option Node)
  | .agent, s =>
    match agentEdgeMap (should_continue s) with
    | some nd => .ok (some nd)
    | none => .error .badLabel
  | .tools, _ => .ok (some .agent)
  | .finalize, _ => .ok none

/-- The stepping loop of the compiled graph: execute the current node,
merge, transition; `limit` is LangGraph's recursion limit (default 25
super-steps), whose exhaustion raises `GraphRecursionError` — the
state is lost, not returned. -/
def runFrom (adapter : Adapter) (exec : ToolExec) :
    Nat → Node → NflAgentState → Except RunError NflAgentState
  | 0, _, _ => .error .recursionLimit
  | n + 1, nd, s =>
    let s' := execNode adapter exec nd s
    match nextTarget nd s' with
    | .error e => .error e
    | .ok none => .ok s'
    | .ok (some nd') => runFrom adapter exec n nd' s'

/-- `graph.invoke(init)` with a recursion limit: run from the entry
node `agent`. -/
def runGraph (adapter : Adapter) (exec : ToolExec) (limit : Nat)
    (init : NflAgentState) : Except RunError NflAgentState :=
  runFrom adapter exec limit .agent init

/-! ## `web_scrape` tool error handling (`Multiagent NFL/agent.py`) -/

/-- The outcome of `_fetch_url` (opaque network I/O): the decoded HTML,
an `urllib.error.HTTPError` with its status code, or any other raised
exception with its message. -/
inductive FetchResult where
  | success (html : String)
  | httpError (code : Nat)
  | failure (msg : String)
deriving DecidableEq

/-- Quote/backslash escaping of `json.dumps` for the string values
appearing here (control/non-ASCII escaping elided; every fixed payload
below is plain ASCII). -/
def jsonEscapeStr (s : String) : String :=
  s.toList.foldr
    (fun c acc =>
      (if c == '"' then "\\\"" else if c == '\\' then "\\\\"
       else String.singleton c) ++ acc) ""

/-- `json.dumps` of a two-entry dict of strings. -/
def jsonObj2 (k1 v1 k2 v2 : String) : String :=
  "\x7b\"" ++ jsonEscapeStr k1 ++ "\": \"" ++ jsonEscapeStr v1 ++
    "\", \"" ++ jsonEscapeStr k2 ++ "\": \"" ++ jsonEscapeStr v2 ++ "\"\x7d"

/-- `re.sub(r"\s+", " ", s).strip()`: collapse whitespace runs to a
single space and strip the ends. -/
def collapseWs (s : String) : String :=
  String.intercalate " " ((s.split Char.isWhitespace).filter (fun t => !(t == "")))

/-- `text[:max_chars].rstrip() + "..."` when over the limit. -/
def pyTruncate (text : String) (max_chars : Nat) : String :=
  if text.length > max_chars then
    (String.mk (text.toList.take max_chars)).trimRight ++ "..."
  else text

/-- `web_scrape(url, max_chars)`.  `extractText` is the
`_TextExtractor` HTML helper (an external collaborator), `fetch` the
outcome of `_fetch_url`.  The result is `Option String` because the
Python function's `except urllib.error.HTTPError` clause returns a
payload only for status 403 and otherwise falls off the end of the
function, returning `None`; any non-`HTTPError` exception is converted
to a JSON error payload by the `except Exception` clause. -/
def web_scrape (extractText : String → String) (fetch : FetchResult)
    (url : String) (max_chars : Nat) : Option String :=
  match fetch with
  | .success html =>
    let text := collapseWs (extractText html)
    let text := pyTruncate text max_chars
    some (jsonObj2 "url" url "content" text)
  | .httpError code =>
    if code == 403 then
      some (jsonObj2 "error" "HTTP Error 403: Forbidden"
        "message"
        "The website blocked your request. Please ensure the page is publicly accessible and try again.")
    else
      none
  | .failure msg =>
    some (jsonObj2 "error" msg
      "message" "An error occurred while scraping the webpage.")

end NFL

/-! ## Concrete fixtures (used by witness and counterexample theorems) -/

namespace Travel

/-- An empty `CustomerInfo`, as built by `create_initial_state`. -/
def exCustomer : CustomerInfo := ⟨none, none, none, none, []⟩

/-- The initial `TravelBooking` built by `create_initial_state`. -/
def exBooking : TravelBooking := ⟨none, none, none, none, 1, "pending", none⟩

/-- A concrete state object whose messages live at list cell 0. -/
def exObj : StateObj :=
  { customer_info := exCustomer
    messagesRef := 0
    current_query := "book a flight"
    query_type := none
    current_agent := none
    agent_responses := []
    booking_info := exBooking
    is_complete := false
    error_message := none
    session_id := "s1"
    created_at := 0
    updated_at := 0 }

/-- A concrete message log: a user query and one agent response. -/
def exMsgs : List ConversationMessage :=
  [⟨"user", "book a flight", 0, none⟩, ⟨"agent", "a", 1, some "router"⟩]

/-- A concrete heap holding one state whose log is `exMsgs`. -/
def exHeap : Heap := ⟨[exObj], [exMsgs]⟩

/-- A message log that already contains a role-`"assistant"` message
(as after one pass of the finalizer). -/
def exMsgsA : List ConversationMessage :=
  [⟨"user", "q", 0, none⟩, ⟨"agent", "a", 1, some "router"⟩,
   ⟨"assistant", "XYZ", 2, some "final_response"⟩]

/-- A concrete heap whose state's log is `exMsgsA`. -/
def exHeapA : Heap := ⟨[exObj], [exMsgsA]⟩

/-- A booking record that already carries a booking id and
destination. -/
def exBooked : TravelBooking :=
  ⟨some "BK1", some "Paris", some "2025-01-01", none, 2, "pending", none⟩

/-- A concrete extracted-info mapping supplying a new destination and
traveler count. -/
def exInfo : ExtractedInfo :=
  { destination := some "London", travelers := some 3 }

end Travel

namespace NFL

/-- A model-adapter stub that always requests one more tool call. -/
def stubAdapter : Adapter :=
  fun _ => ("", [⟨"current_datetime", "", "call_1"⟩])

/-- A tool-executor stub returning a fixed payload. -/
def stubExec : ToolExec := fun _ => "\x7b\"date\": \"2025-01-01\"\x7d"

/-- A concrete initial state: one user question. -/
def initState : NflAgentState := ⟨[.human "Who is the passing leader?"], none⟩

end NFL

/-! ## Supporting list lemmas -/

/-- A successful `get?` bounds the index. -/
theorem get_some_lt {α : Type} {l : List α} {n : Nat} {a : α}
    (h : l.get? n = some a) : n < l.length := by
  rcases Nat.lt_or_ge n l.length with h' | h'
  · exact h'
  · rw [List.get?_eq_none.mpr h'] at h; cases h

/-- Assigning the cell just past `l` in `l ++ [a]` replaces `a`. -/
theorem set_concat_length {α : Type} (l : List α) (a b : α) :
    (l ++ [a]).set l.length b = l ++ [b] := by
  induction l with
  | nil => rfl
  | cons x xs ih => simp [List.set, ih]

/-- `get?` on an append, inside the left part. -/
theorem get_append_left {α : Type} {l₁ : List α} (l₂ : List α) {n : Nat}
    (h : n < l₁.length) : (l₁ ++ l₂).get? n = l₁.get? n := by
  induction l₁ generalizing n with
  | nil => cases h
  | cons x xs ih =>
    cases n with
    | zero => rfl
    | succ m => exact ih (Nat.lt_of_succ_lt_succ h)

/-- `get?` at the cell just past `l` in `l ++ a :: l₂`. -/
theorem get_append_length {α : Type} (l : List α) (a : α) (l₂ : List α) :
    (l ++ a :: l₂).get? l.length = some a := by
  induction l with
  | nil => rfl
  | cons x xs ih => exact ih

namespace Travel

/-! ## Heap-level characterization of the state operations -/

/-- Closed form of `add_message_to_state` on a well-formed reference:
the heap gains one dict (the updated copy) and one list (the extended
log); nothing else changes. -/
theorem add_message_eq {h : Heap} {r : Nat} {obj : StateObj}
    {msgs : List ConversationMessage}
    (hobj : h.dicts.get? r = some obj)
    (hmsgs : h.lists.get? obj.messagesRef = some msgs)
    (role content : String) (agent_name : Option String) (now : Nat) :
    add_message_to_state h r role content agent_name now =
      (⟨h.dicts ++ [{ obj with messagesRef := h.lists.length, updated_at := now }],
        h.lists ++ [msgs ++ [⟨role, content, now, agent_name⟩]]⟩,
       h.dicts.length) := by
  unfold add_message_to_state
  rw [hobj]
  simp only [hmsgs, Option.getD_some]
  rw [set_concat_length]

/-- Closed form of `update_state_field` on a well-formed reference. -/
theorem update_state_field_eq {h : Heap} {r : Nat} {obj : StateObj}
    (hobj : h.dicts.get? r = some obj) (f : FieldUpd) (now : Nat) :
    update_state_field h r f now =
      (⟨h.dicts ++ [{ setField obj f with updated_at := now }], h.lists⟩,
       h.dicts.length) := by
  unfold update_state_field
  rw [hobj]
  simp only
  rw [set_concat_length]

/-- Dereferencing the freshly returned state object. -/
theorem dictAt_concat (ds : List StateObj) (ls : List (List ConversationMessage))
    (o : StateObj) : (Heap.mk (ds ++ [o]) ls).dictAt ds.length = some o := by
  simp [Heap.dictAt, get_append_length ds o []]

/-- Dereferencing an old state object after an allocation. -/
theorem dictAt_old {ds : List StateObj} (ls : List (List ConversationMessage))
    (o : StateObj) {r : Nat} (hr : r < ds.length) :
    (Heap.mk (ds ++ [o]) ls).dictAt r = ds.get? r := by
  simpa [Heap.dictAt] using get_append_left [o] hr

/-- The message log of a pre-existing state is untouched by any
allocation of new dicts and new lists. -/
theorem msgsOf_frame {h : Heap} {r : Nat} {obj : StateObj}
    {msgs : List ConversationMessage}
    (hobj : h.dicts.get? r = some obj)
    (hmsgs : h.lists.get? obj.messagesRef = some msgs)
    (o : StateObj) (tail : List (List ConversationMessage)) :
    (Heap.mk (h.dicts ++ [o]) (h.lists ++ tail)).msgsOf r = some msgs := by
  have hr : r < h.dicts.length := get_some_lt hobj
  have hm : obj.messagesRef < h.lists.length := get_some_lt hmsgs
  unfold Heap.msgsOf
  simp only [get_append_left [o] hr, hobj, get_append_left tail hm, hmsgs]

/-- The message log behind the freshly returned reference of
`add_message_to_state` is the old log plus the new entry. -/
theorem msgsOf_new {ds : List StateObj} {ls : List (List ConversationMessage)}
    {o : StateObj} {m : List ConversationMessage}
    (hmr : o.messagesRef = ls.length) :
    (Heap.mk (ds ++ [o]) (ls ++ [m])).msgsOf ds.length = some m := by
  unfold Heap.msgsOf
  simp only [get_append_length ds o [], hmr]
  simp [get_append_length ls m []]

/-! ## Claim theorems -/

/-- C2: for every state `s`, every role, content and agent name, the
message list of `add_message_to_state(s, role, content, agent_name)`
is exactly the message list of `s` extended with one new entry at the
end; no prior entry is altered, removed, or reordered (the message log
is append-only). -/
theorem C2_add_message_append_only {h : Heap} {r : Nat} {obj : StateObj}
    {msgs : List ConversationMessage}
    (hobj : h.dicts.get? r = some obj)
    (hmsgs : h.lists.get? obj.messagesRef = some msgs)
    (role content : String) (agent_name : Option String) (now : Nat) :
    (add_message_to_state h r role content agent_name now).1.msgsOf
        (add_message_to_state h r role content agent_name now).2 =
      some (msgs ++ [⟨role, content, now, agent_name⟩]) := by
  rw [add_message_eq hobj hmsgs]
  exact msgsOf_new rfl

/-- Witness for C2 at a concrete heap. -/
theorem C2_witness :
    exHeap.dicts.get? 0 = some exObj ∧
    exHeap.lists.get? exObj.messagesRef = some exMsgs ∧
    (add_message_to_state exHeap 0 "agent" "hello" (some "router") 5).1.msgsOf
        (add_message_to_state exHeap 0 "agent" "hello" (some "router") 5).2 =
      some (exMsgs ++ [⟨"agent", "hello", 5, some "router"⟩]) :=
  ⟨rfl, rfl, C2_add_message_append_only (by rfl) (by rfl) "agent" "hello" (some "router") 5⟩

/-- C3: `add_message_to_state` and `update_state_field` return a fresh
state object and leave every original field of the input state
unchanged — the state dict at the old reference and the message list
it points to are structurally equal to their values before the call,
and the returned reference is a different object. -/
theorem C3_no_mutation {h : Heap} {r : Nat} {obj : StateObj}
    {msgs : List ConversationMessage}
    (hobj : h.dicts.get? r = some obj)
    (hmsgs : h.lists.get? obj.messagesRef = some msgs)
    (role content : String) (agent_name : Option String) (now : Nat)
    (f : FieldUpd) (now2 : Nat) :
    ((add_message_to_state h r role content agent_name now).1.dictAt r = some obj ∧
     (add_message_to_state h r role content agent_name now).1.msgsOf r = some msgs ∧
     (add_message_to_state h r role content agent_name now).2 ≠ r) ∧
    ((update_state_field h r f now2).1.dictAt r = some obj ∧
     (update_state_field h r f now2).1.msgsOf r = some msgs ∧
     (update_state_field h r f now2).2 ≠ r) := by
  have hr : r < h.dicts.length := get_some_lt hobj
  have hner : h.dicts.length ≠ r := fun e => absurd (e ▸ hr) (Nat.lt_irrefl _)
  constructor
  · rw [add_message_eq hobj hmsgs]
    exact ⟨(dictAt_old _ _ hr).trans hobj, msgsOf_frame hobj hmsgs _ _, hner⟩
  · rw [update_state_field_eq hobj f now2]
    refine ⟨(dictAt_old _ _ hr).trans hobj, ?_, hner⟩
    have := msgsOf_frame hobj hmsgs { setField obj f with updated_at := now2 } []
    simpa using this

/-- Witness for C3 at a concrete heap. -/
theorem C3_witness :
    exHeap.dicts.get? 0 = some exObj ∧
    exHeap.lists.get? exObj.messagesRef = some exMsgs ∧
    ((add_message_to_state exHeap 0 "agent" "hello" (some "router") 5).1.dictAt 0 =
        some exObj ∧
     (add_message_to_state exHeap 0 "agent" "hello" (some "router") 5).1.msgsOf 0 =
        some exMsgs ∧
     (add_message_to_state exHeap 0 "agent" "hello" (some "router") 5).2 ≠ 0) ∧
    ((update_state_field exHeap 0 (.is_complete true) 6).1.dictAt 0 = some exObj ∧
     (update_state_field exHeap 0 (.is_complete true) 6).1.msgsOf 0 = some exMsgs ∧
     (update_state_field exHeap 0 (.is_complete true) 6).2 ≠ 0) :=
  ⟨rfl, rfl,
    C3_no_mutation (by rfl) (by rfl) "agent" "hello" (some "router") 5 (.is_complete true) 6⟩

/-- C4 counterexample: on the empty query (which matches no keyword)
`_route_to_agent` returns `"complete"`, and the conditional edge
mapping sends `"complete"` straight to the `final_response` node — so
the router does transition directly to `final_response`, contradicting
the claim that it always selects one of the three specialized agent
nodes. -/
theorem C4_counterexample :
    routerEdgeMap (route_to_agent "") = some TravelNode.final_response := by
  decide

/-- C4 (amended): for every `current_query`, the router's conditional
edge label is one of the four labels of the edge mapping — `"booking"`,
`"complaint"` or `"information"` selecting the corresponding
specialized agent node when a keyword of that category matches, and
otherwise the default `"complete"`, which transitions directly to the
`final_response` node. -/
theorem C4_router_edge (q : String) :
    (route_to_agent q = "booking" ∧
      routerEdgeMap (route_to_agent q) = some .booking_agent) ∨
    (route_to_agent q = "complaint" ∧
      routerEdgeMap (route_to_agent q) = some .complaint_agent) ∨
    (route_to_agent q = "information" ∧
      routerEdgeMap (route_to_agent q) = some .information_agent) ∨
    (route_to_agent q = "complete" ∧
      routerEdgeMap (route_to_agent q) = some .final_response) := by
  unfold route_to_agent
  dsimp only
  split_ifs <;> simp [routerEdgeMap]

/-- C5: for every state (hence every input query string, including the
empty string, non-ASCII text, and text matching no keyword), the
deterministic keyword fallback `_fallback_routing` terminates and
produces a state whose routing decision is present and is exactly one
of `"booking"`, `"complaint"`, `"information"` — never absent and
never any other value. -/
theorem C5_fallback_total {h : Heap} {r : Nat} {obj : StateObj}
    {msgs : List ConversationMessage}
    (hobj : h.dicts.get? r = some obj)
    (hmsgs : h.lists.get? obj.messagesRef = some msgs) (now : Nat) :
    ∃ o : StateObj,
      (fallback_routing h r now).1.dictAt (fallback_routing h r now).2 = some o ∧
      o.current_agent = some (fallback_choice obj.current_query).1 ∧
      o.query_type = some (fallback_choice obj.current_query).1 ∧
      ((fallback_choice obj.current_query).1 = "booking" ∨
       (fallback_choice obj.current_query).1 = "complaint" ∨
       (fallback_choice obj.current_query).1 = "information") := by
  refine ?_
  have hcat : (fallback_choice obj.current_query).1 = "booking" ∨
      (fallback_choice obj.current_query).1 = "complaint" ∨
      (fallback_choice obj.current_query).1 = "information" := by
    unfold fallback_choice
    dsimp only
    split_ifs <;> simp
  simp only [fallback_routing, update_state_field, add_message_to_state, setField,
    Heap.dictAt, Heap.msgsOf, hobj, hmsgs, set_concat_length, get_append_length,
    Option.map_some', Option.getD_some]
  exact ⟨_, rfl, rfl, rfl, hcat⟩

/-- Witness for C5 at a concrete heap (query `"book a flight"`). -/
theorem C5_witness :
    exHeap.dicts.get? 0 = some exObj ∧
    exHeap.lists.get? exObj.messagesRef = some exMsgs ∧
    ∃ o : StateObj,
      (fallback_routing exHeap 0 7).1.dictAt (fallback_routing exHeap 0 7).2 = some o ∧
      o.current_agent = some (fallback_choice exObj.current_query).1 ∧
      o.query_type = some (fallback_choice exObj.current_query).1 ∧
      ((fallback_choice exObj.current_query).1 = "booking" ∨
       (fallback_choice exObj.current_query).1 = "complaint" ∨
       (fallback_choice exObj.current_query).1 = "information") :=
  ⟨rfl, rfl, C5_fallback_total (by rfl) (by rfl) 7⟩

/-- Appending a message whose role is not `"agent"` leaves the
finalizer's answer unchanged. -/
theorem finalAnswerOf_append_nonagent (msgs : List ConversationMessage)
    (m : ConversationMessage) (hm : (m.role == "agent") = false) :
    finalAnswerOf (msgs ++ [m]) = finalAnswerOf msgs := by
  unfold finalAnswerOf
  simp [List.filter_append, List.filter, hm]

/-- The finalizer's effect on the message log: exactly one new entry,
with role `"assistant"`, content `finalAnswerOf msgs` and agent name
`"final_response"`. -/
theorem final_response_msgs {h : Heap} {r : Nat} {obj : StateObj}
    {msgs : List ConversationMessage}
    (hobj : h.dicts.get? r = some obj)
    (hmsgs : h.lists.get? obj.messagesRef = some msgs) (now : Nat) :
    (final_response_agent h r now).1.msgsOf (final_response_agent h r now).2 =
      some (msgs ++ [⟨"assistant", finalAnswerOf msgs, now, some "final_response"⟩]) := by
  simp only [final_response_agent, add_message_to_state, update_state_field, setField,
    Heap.msgsOf, Heap.dictAt, hobj, hmsgs, set_concat_length, get_append_length,
    Option.getD_some]

/-- The finalizer sets `is_complete` on the state it returns. -/
theorem final_response_complete {h : Heap} {r : Nat} {obj : StateObj}
    {msgs : List ConversationMessage}
    (hobj : h.dicts.get? r = some obj)
    (hmsgs : h.lists.get? obj.messagesRef = some msgs) (now : Nat) :
    ((final_response_agent h r now).1.dictAt (final_response_agent h r now).2).map
      (fun o => o.is_complete) = some true := by
  simp only [final_response_agent, add_message_to_state, update_state_field, setField,
    Heap.msgsOf, Heap.dictAt, hobj, hmsgs, set_concat_length, get_append_length,
    Option.getD_some, Option.map_some']

/-- C7 counterexample: on a state whose log is
`[user "q", agent "a", assistant "XYZ"]`, the last 3 agent/assistant
messages have contents `"a"` and `"XYZ"`, yet the finalizer's answer is
`"Final Response: a"`, which does not contain `"XYZ"` at all — the
answer is not built from the agent/assistant messages, only from the
role-`"agent"` ones. -/
theorem C7_counterexample :
    (final_response_agent exHeapA 0 9).1.msgsOf (final_response_agent exHeapA 0 9).2 =
      some (exMsgsA ++ [⟨"assistant", "Final Response: a", 9, some "final_response"⟩]) ∧
    pyIn "XYZ" "Final Response: a" = false := by
  constructor
  · decide
  · decide

/-- C7 (amended): for every state, the finalizer produces the single
answer string `"Final Response: "` followed by the space-joined
contents of the last 3 messages whose role is exactly `"agent"`
(role-`"assistant"` messages are not included), appends that answer as
one new message (role `"assistant"`, agent name `"final_response"`),
and sets the completion flag `is_complete` to true. -/
theorem C7_finalizer {h : Heap} {r : Nat} {obj : StateObj}
    {msgs : List ConversationMessage}
    (hobj : h.dicts.get? r = some obj)
    (hmsgs : h.lists.get? obj.messagesRef = some msgs) (now : Nat) :
    (final_response_agent h r now).1.msgsOf (final_response_agent h r now).2 =
      some (msgs ++ [⟨"assistant", finalAnswerOf msgs, now, some "final_response"⟩]) ∧
    ((final_response_agent h r now).1.dictAt (final_response_agent h r now).2).map
      (fun o => o.is_complete) = some true :=
  ⟨final_response_msgs hobj hmsgs now, final_response_complete hobj hmsgs now⟩

/-- Witness for C7 at a concrete heap. -/
theorem C7_witness :
    exHeap.dicts.get? 0 = some exObj ∧
    exHeap.lists.get? exObj.messagesRef = some exMsgs ∧
    ((final_response_agent exHeap 0 9).1.msgsOf (final_response_agent exHeap 0 9).2 =
      some (exMsgs ++ [⟨"assistant", finalAnswerOf exMsgs, 9, some "final_response"⟩]) ∧
    ((final_response_agent exHeap 0 9).1.dictAt (final_response_agent exHeap 0 9).2).map
      (fun o => o.is_complete) = some true) :=
  ⟨rfl, rfl, C7_finalizer (by rfl) (by rfl) 9⟩

/-- C8: the finalizer is idempotent in the produced answer — the
answer computed on a state equals the answer computed on the state the
finalizer returns, because the appended message has role `"assistant"`
and the answer is built from the role-`"agent"` messages only. -/
theorem C8_idempotent {h : Heap} {r : Nat} {obj : StateObj}
    {msgs : List ConversationMessage}
    (hobj : h.dicts.get? r = some obj)
    (hmsgs : h.lists.get? obj.messagesRef = some msgs) (now : Nat) :
    ∃ msgs1,
      (final_response_agent h r now).1.msgsOf (final_response_agent h r now).2 =
        some msgs1 ∧
      finalAnswerOf msgs1 = finalAnswerOf msgs :=
  ⟨_, final_response_msgs hobj hmsgs now,
    finalAnswerOf_append_nonagent msgs _ rfl⟩

/-- Witness for C8 at a concrete heap that already went through one
finalizer pass (its log ends in an `"assistant"` message). -/
theorem C8_witness :
    exHeapA.dicts.get? 0 = some exObj ∧
    exHeapA.lists.get? exObj.messagesRef = some exMsgsA ∧
    ∃ msgs1,
      (final_response_agent exHeapA 0 11).1.msgsOf (final_response_agent exHeapA 0 11).2 =
        some msgs1 ∧
      finalAnswerOf msgs1 = finalAnswerOf exMsgsA :=
  ⟨rfl, rfl, C8_idempotent (by rfl) (by rfl) 11⟩

/-- C9: keyword categories are tested in a fixed priority order —
booking before complaint before the default — so every query that
contains both a booking keyword and a complaint keyword (of
`_route_to_agent`'s lists; its booking list is contained in the
fallback's `booking_keywords`) is classified as booking by both the
router conditional edge and the keyword fallback. -/
theorem C9_booking_priority (q : String)
    (hb : routeBookingWords.any (fun w => pyIn w (pyLower q)) = true)
    (_hc : routeComplaintWords.any (fun w => pyIn w (pyLower q)) = true) :
    route_to_agent q = "booking" ∧ (fallback_choice q).1 = "booking" := by
  constructor
  · unfold route_to_agent
    dsimp only
    simp [hb]
  · unfold fallback_choice
    dsimp only
    have hb2 : booking_keywords.any (fun w => pyIn w (pyLower q)) = true := by
      simp only [List.any_eq_true] at hb ⊢
      obtain ⟨w, hw, hin⟩ := hb
      have hsub : ∀ x ∈ routeBookingWords, x ∈ booking_keywords := by decide
      exact ⟨w, hsub w hw, hin⟩
    simp [hb2]

/-- Witness for C9: a query containing both `"book"` and `"refund"`. -/
theorem C9_witness :
    routeBookingWords.any
      (fun w => pyIn w (pyLower "please Book a flight and give me a refund")) = true ∧
    routeComplaintWords.any
      (fun w => pyIn w (pyLower "please Book a flight and give me a refund")) = true ∧
    (route_to_agent "please Book a flight and give me a refund" = "booking" ∧
     (fallback_choice "please Book a flight and give me a refund").1 = "booking") :=
  ⟨by decide, by decide, C9_booking_priority _ (by decide) (by decide)⟩

/-- `applyExtracted` never touches `booking_id`. -/
theorem applyExtracted_booking_id (cb : TravelBooking) (ei : ExtractedInfo) :
    (applyExtracted cb ei).booking_id = cb.booking_id := by
  unfold applyExtracted
  dsimp only
  split_ifs <;> rfl

/-- The branch on the generated booking id never touches the other
fields. -/
theorem update_booking_info_fields (cb : TravelBooking) (ei : ExtractedInfo)
    (now : Nat) :
    (update_booking_info cb ei now).destination = (applyExtracted cb ei).destination ∧
    (update_booking_info cb ei now).departure_date =
      (applyExtracted cb ei).departure_date ∧
    (update_booking_info cb ei now).return_date = (applyExtracted cb ei).return_date ∧
    (update_booking_info cb ei now).travelers = (applyExtracted cb ei).travelers := by
  unfold update_booking_info
  dsimp only
  split_ifs <;> exact ⟨rfl, rfl, rfl, rfl⟩

/-- The field-by-field behavior of `applyExtracted`. -/
theorem applyExtracted_spec (cb : TravelBooking) (ei : ExtractedInfo) :
    (applyExtracted cb ei).destination =
      (if truthyStr ei.destination then ei.destination else cb.destination) ∧
    (applyExtracted cb ei).departure_date =
      (if truthyStr ei.departure_date then ei.departure_date else cb.departure_date) ∧
    (applyExtracted cb ei).return_date =
      (if truthyStr ei.return_date then ei.return_date else cb.return_date) ∧
    (applyExtracted cb ei).travelers =
      (if truthyInt ei.travelers then ei.travelers.getD 0 else cb.travelers) := by
  unfold applyExtracted
  dsimp only
  split_ifs <;> simp_all

/-- C10: `_update_booking_info` never changes a booking id that is
already set (Python-truthy, i.e. neither `None` nor `""`); a new
booking id is generated only when the current one is falsy and the
updated record has a truthy destination; and each of the four
extractable fields is overwritten exactly when the extracted-info
mapping supplies a truthy value for it, the prior value being retained
otherwise. -/
theorem C10_booking_update (cb : TravelBooking) (ei : ExtractedInfo) (now : Nat) :
    (truthyStr cb.booking_id = true →
      (update_booking_info cb ei now).booking_id = cb.booking_id) ∧
    ((update_booking_info cb ei now).booking_id ≠ cb.booking_id →
      truthyStr cb.booking_id = false ∧
      truthyStr (update_booking_info cb ei now).destination = true) ∧
    ((update_booking_info cb ei now).destination =
      (if truthyStr ei.destination then ei.destination else cb.destination)) ∧
    ((update_booking_info cb ei now).departure_date =
      (if truthyStr ei.departure_date then ei.departure_date else cb.departure_date)) ∧
    ((update_booking_info cb ei now).return_date =
      (if truthyStr ei.return_date then ei.return_date else cb.return_date)) ∧
    ((update_booking_info cb ei now).travelers =
      (if truthyInt ei.travelers then ei.travelers.getD 0 else cb.travelers)) := by
  obtain ⟨hd, hdd, hrd, htr⟩ := update_booking_info_fields cb ei now
  obtain ⟨sd, sdd, srd, str⟩ := applyExtracted_spec cb ei
  have hbid := applyExtracted_booking_id cb ei
  refine ⟨?_, ?_, hd.trans sd, hdd.trans sdd, hrd.trans srd, htr.trans str⟩
  · intro htruthy
    unfold update_booking_info
    dsimp only
    rw [hbid, htruthy]
    simp [hbid]
  · intro hne
    unfold update_booking_info at hne
    dsimp only at hne
    by_cases hcond :
        (!truthyStr (applyExtracted cb ei).booking_id &&
          truthyStr (applyExtracted cb ei).destination) = true
    · rw [Bool.and_eq_true, Bool.not_eq_true'] at hcond
      refine ⟨hbid ▸ hcond.1, ?_⟩
      rw [hd, sd] at *
      exact hcond.2
    · rw [if_neg (by simpa using hcond), hbid] at hne
      exact absurd rfl hne

/-- Witness for C10: a record with a set booking id keeps it, and a
supplied destination overwrites while an unsupplied date is
retained. -/
theorem C10_witness :
    truthyStr exBooked.booking_id = true ∧
    (update_booking_info exBooked exInfo 7).booking_id = exBooked.booking_id ∧
    (update_booking_info exBooked exInfo 7).destination = exInfo.destination ∧
    (update_booking_info exBooked exInfo 7).departure_date = exBooked.departure_date ∧
    (update_booking_info exBooked exInfo 7).travelers = exInfo.travelers.getD 0 :=
  ⟨by decide, (C10_booking_update exBooked exInfo 7).1 (by decide),
    by decide, by decide, by decide⟩

end Travel

namespace NFL

/-- With an adapter that always returns at least one tool call, the
stepping loop started at any non-terminal node exhausts every fuel
bound: `should_continue` always answers `"tools"`, so the run cycles
between `agent` and `tools` and never reaches `finalize`. -/
theorem runFrom_always_tools (adapter : Adapter) (exec : ToolExec)
    (hA : ∀ msgs, (adapter msgs).2 ≠ []) :
    ∀ (n : Nat) (nd : Node), nd ≠ .finalize →
      ∀ s, runFrom adapter exec n nd s = .error .recursionLimit := by
  intro n
  induction n with
  | zero => intro nd _ s; rfl
  | succ m ih =>
    intro nd hnd s
    cases nd with
    | finalize => exact absurd rfl hnd
    | agent =>
      have hsc : should_continue (execNode adapter exec .agent s) = "tools" := by
        unfold execNode agent_node mergeState should_continue
        dsimp only
        rw [List.getLast?_concat]
        rcases hr : (adapter (LMsg.system systemPrompt :: s.messages)).2 with _ | ⟨a, as⟩
        · exact absurd hr (hA _)
        · rfl
      have hnt : nextTarget .agent (execNode adapter exec .agent s) = .ok (some .tools) := by
        unfold nextTarget
        dsimp only
        rw [hsc]
        rfl
      unfold runFrom
      dsimp only
      rw [hnt]
      exact ih .tools (by simp) _
    | tools =>
      unfold runFrom
      dsimp only
      rw [show nextTarget .tools (execNode adapter exec .tools s) = .ok (some .agent) from rfl]
      exact ih .agent (by simp) _

/-- C1 counterexample: with the model-adapter stub that always returns
a new tool call, the executor run at LangGraph's default recursion
limit of 25 aborts with `GraphRecursionError` — it does not return a
state at all, so it does not return a state whose completion flag
(`final_answer`) is set. -/
theorem C1_counterexample :
    runGraph stubAdapter stubExec 25 initState = .error .recursionLimit := rfl

/-- C1 (amended): with a model adapter that on every turn returns a
message containing at least one tool call, the tool-loop executor of
`build_agent` never reaches the `finalize` node — for every recursion
limit it aborts with `GraphRecursionError` instead of stopping with a
completed state; the source graph imposes no hop cap of its own that
would finalize the run. -/
theorem C1_no_self_termination (adapter : Adapter) (exec : ToolExec)
    (hA : ∀ msgs, (adapter msgs).2 ≠ []) (limit : Nat) (init : NflAgentState) :
    runGraph adapter exec limit init = .error .recursionLimit :=
  runFrom_always_tools adapter exec hA limit .agent (by simp) init

/-- Witness for C1 at the concrete stub adapter and a limit of 25. -/
theorem C1_witness :
    (∀ msgs, (stubAdapter msgs).2 ≠ []) ∧
    runGraph stubAdapter stubExec 25 initState = Except.error RunError.recursionLimit :=
  ⟨fun _ => List.cons_ne_nil _ _,
    C1_no_self_termination stubAdapter stubExec (fun _ => List.cons_ne_nil _ _)
      25 initState⟩

/-- C6 (code bug): `web_scrape` on a URL whose fetch raises an HTTP
error with a status other than 403 (here 404) returns `None` — the
`except HTTPError` clause only produces a payload for 403 and
otherwise falls off the end of the function — contradicting the
claim (and the function's own docstring, which declares `Returns:
str`) that every failing tool invocation yields a JSON error payload.
The generic-exception path does return a payload. -/
theorem C6_http_error_non403_returns_none :
    web_scrape id (.httpError 404) "https://www.espn.com/nfl" 3500 = none ∧
    web_scrape id (.failure "timed out") "https://www.espn.com/nfl" 3500 =
      some (jsonObj2 "error" "timed out"
        "message" "An error occurred while scraping the webpage.") :=
  ⟨rfl, rfl⟩

end NFL
